import Mathlib

/-!
Verification of the VaultDAO proposal lifecycle and timelock/threshold engine.

The definitions below are a shallow embedding of the proposal dashboard's
state-machine logic (`src/frontend/src/app/dashboard/Proposals.tsx`, second
component): the `Proposal` record, the derived queries `getLedgersRemaining`,
`isTimelockExpired`, `canExecuteProposal`, `canRejectProposal`, the call-site
guard for the reject action, and the reject/execute confirmation handlers.
The external submission collaborator (`useVaultContract`) is not part of the
excerpt; where an operation's semantics live in that collaborator, the
definition is modelled from the specification and says so in its doc comment.
TypeScript `number` fields holding ledger sequence numbers, approval counts
and thresholds are embedded as `Nat`; optional fields are `Option`;
`Math.max(0, a - b)` is computed in `Int`.
-/

/-- The five proposal statuses, a closed enum mirroring the TypeScript
string-literal union `Pending | Approved | Executed | Rejected | Expired`. -/
inductive ProposalStatus where
  | Pending
  | Approved
  | Executed
  | Rejected
  | Expired
deriving DecidableEq, Repr

/-- The `Proposal` record of the dashboard component. `unlockLedger` is the
optional unlock ledger for timelocked proposals (0 = no timelock) and
`currentLedger` the optional last-observed network ledger sequence. -/
structure Proposal where
  id : Nat
  proposer : String
  recipient : String
  amount : String
  token : String
  memo : String
  status : ProposalStatus
  approvals : Nat
  threshold : Nat
  createdAt : String
  unlockLedger : Option Nat
  currentLedger : Option Nat
deriving DecidableEq, Repr

/-- The role string the component compares `userRole` against. -/
def adminRole : String := "Admin"

/-- A non-admin role value used by concrete instances. -/
def treasurerRole : String := "Treasurer"

/-- `getLedgersRemaining` from the source: returns 0 when `unlockLedger` is
absent or 0 (the JavaScript guard `!p.unlockLedger || p.unlockLedger === 0`,
captured by `Option.getD 0 = 0`), otherwise
`Math.max(0, unlockLedger - (currentLedger ?? 0))`. -/
def getLedgersRemaining (p : Proposal) : Int :=
  if p.unlockLedger.getD 0 = 0 then 0
  else max 0 ((p.unlockLedger.getD 0 : Int) - (p.currentLedger.getD 0 : Int))

/-- `isTimelockExpired` from the source: `getLedgersRemaining(p) === 0`. -/
def isTimelockExpired (p : Proposal) : Bool :=
  decide (getLedgersRemaining p = 0)

/-- `canExecuteProposal` from the source: approved, threshold reached, and
timelock expired. -/
def canExecuteProposal (p : Proposal) : Bool :=
  decide (p.status = ProposalStatus.Approved) &&
  decide (p.threshold ≤ p.approvals) &&
  isTimelockExpired p

/-- `canRejectProposal` from the source. The component closes over
`isConnected` and `address` from the wallet provider and over the (mock)
`userRole`; they are parameters here. With no connected wallet or a falsy
address the function returns `true` (demo mode); otherwise it checks
`p.proposer === address || userRole === 'Admin'`. It does not inspect
`p.status`. -/
def canRejectProposal (isConnected : Bool) (address : Option String)
    (userRole : String) (p : Proposal) : Bool :=
  match isConnected, address with
  | false, _ => true
  | true, none => true
  | true, some addr =>
    if addr.isEmpty then true
    else decide (p.proposer = addr) || decide (userRole = adminRole)

/-- The render-time guard for the reject action: the reject button is
offered only inside the `proposal.status === 'Pending'` block and only when
`canRejectProposal(proposal)` holds. -/
def rejectActionAvailable (isConnected : Bool) (address : Option String)
    (userRole : String) (p : Proposal) : Bool :=
  decide (p.status = ProposalStatus.Pending) &&
  canRejectProposal isConnected address userRole p

/-- Notification event key used by the reject handler. -/
def rejectedEvent : String := "proposal_rejected"

/-- Notification event key used by the execute handler. -/
def executedEvent : String := "proposal_executed"

/-- Toast level for successful operations. -/
def successLevel : String := "success"

/-- Toast level for failed operations. -/
def errorLevel : String := "error"

/-- Fallback message when a rejection failure is not an `Error` instance. -/
def rejectFallbackMessage : String := "Failed to reject proposal"

/-- Fallback message when an execution failure is not an `Error` instance. -/
def executeFallbackMessage : String := "Failed to execute proposal"

/-- Success toast text of the reject handler. -/
def rejectSuccessMessage (pid : Nat) : String :=
  "Proposal #" ++ toString pid ++ " rejected successfully"

/-- Success toast text of the execute handler. -/
def executeSuccessMessage (pid : Nat) : String :=
  "Proposal #" ++ toString pid ++ " executed — funds transferred successfully"

/-- `handleRejectConfirm` from the source, as a function of the proposal
list, the selected proposal id, and the outcome of the awaited external
`rejectProposal` call. A thrown value is `Except.error e` where `e` is
`some msg` for an `Error` instance carrying `msg` and `none` otherwise.
Returns the proposal list after the handler together with the toast
notification it emits, if any: on early return (no selection) nothing
happens; on success the matching proposal's status becomes `Rejected`; on
failure the list is untouched and the error message (or the fallback) is
shown. -/
def handleRejectConfirm (ps : List Proposal) (sel : Option Nat)
    (ext : Except (Option String) String) :
    List Proposal × Option (String × String × String) :=
  match sel with
  | none => (ps, none)
  | some pid =>
    match ext with
    | Except.ok _ =>
      (ps.map (fun p => if p.id = pid then { p with status := ProposalStatus.Rejected } else p),
       some (rejectedEvent, rejectSuccessMessage pid, successLevel))
    | Except.error e =>
      (ps, some (rejectedEvent, e.getD rejectFallbackMessage, errorLevel))

/-- `handleExecuteClick` from the source, as a function of the proposal
list, the clicked proposal id, and the outcome of the awaited external
`executeProposal` call, with the same conventions as `handleRejectConfirm`:
on success the matching proposal's status becomes `Executed`; on failure the
list is untouched and the error message (or the fallback) is shown. -/
def handleExecuteClick (ps : List Proposal) (pid : Nat)
    (ext : Except (Option String) String) :
    List Proposal × Option (String × String × String) :=
  match ext with
  | Except.ok _ =>
    (ps.map (fun p => if p.id = pid then { p with status := ProposalStatus.Executed } else p),
     some (executedEvent, executeSuccessMessage pid, successLevel))
  | Except.error e =>
    (ps, some (executedEvent, e.getD executeFallbackMessage, errorLevel))

/-- The shared proposer address of the source's mock data. -/
def proposerAddr : String := "GABC...XYZ1"

/-- Mock proposal 1 from the source: pending, 1 of 3 approvals, no timelock
fields. -/
def mockProposal1 : Proposal :=
  { id := 1, proposer := proposerAddr, recipient := "GDEF...ABC2",
    amount := "1000", token := "USDC", memo := "Marketing budget",
    status := ProposalStatus.Pending, approvals := 1, threshold := 3,
    createdAt := "2024-02-15", unlockLedger := none, currentLedger := none }

/-- Mock proposal 2 from the source: approved at threshold, no timelock
(`unlockLedger = 0`), current ledger 1000. -/
def mockProposal2 : Proposal :=
  { id := 2, proposer := proposerAddr, recipient := "GHIJ...DEF3",
    amount := "500", token := "XLM", memo := "Development costs",
    status := ProposalStatus.Approved, approvals := 3, threshold := 3,
    createdAt := "2024-02-14", unlockLedger := some 0, currentLedger := some 1000 }

/-- Mock proposal 3 from the source: approved at threshold but still
timelocked — unlocks at ledger 1500, currently at 1200. -/
def mockProposal3 : Proposal :=
  { id := 3, proposer := proposerAddr, recipient := "GKLM...GHI4",
    amount := "5000", token := "XLM", memo := "Q1 payroll",
    status := ProposalStatus.Approved, approvals := 3, threshold := 3,
    createdAt := "2024-02-13", unlockLedger := some 1500, currentLedger := some 1200 }

/-- Mock proposal 2 after execution, used as a concrete terminal-status
proposal. -/
def executedProposal : Proposal :=
  { mockProposal2 with status := ProposalStatus.Executed }

/-- An approved proposal below threshold with `unlockLedger = 0` (the
specification's threshold-unmet execution scenario). -/
def thresholdUnmetProposal : Proposal :=
  { mockProposal1 with status := ProposalStatus.Approved, unlockLedger := some 0 }

/-- A timelocked proposal whose `currentLedger` field is absent. -/
def lockedNoLedger : Proposal :=
  { mockProposal3 with currentLedger := none }

example : canExecuteProposal mockProposal2 = true := by decide
example : canExecuteProposal mockProposal3 = false := by decide
example : getLedgersRemaining mockProposal3 = 300 := by decide

/-- Failure modes of the reject operation, from the specification's error
taxonomy. -/
inductive RejectError where
  | NotFound
  | Forbidden
  | SubmissionFailed (msg : String)
deriving DecidableEq, Repr

/-- Sub-reason distinguishing why a proposal is not executable. -/
inductive NotExecutableReason where
  | ThresholdUnmet
  | StillTimelocked
deriving DecidableEq, Repr

/-- Failure modes of the execute operation, from the specification's error
taxonomy. -/
inductive ExecError where
  | NotFound
  | NotExecutable (r : NotExecutableReason)
  | SubmissionFailed (msg : String)
deriving DecidableEq, Repr

/-- Modelled from the spec: the derived query `canReject(p, actor, isAdmin)`
of the ledger-level reject operation, whose authoritative implementation
(the `useVaultContract` hook and the contract) is not part of the excerpt.
True iff the proposal is pending and the actor is its proposer or an
admin. -/
def specCanReject (p : Proposal) (actor : String) (isAdmin : Bool) : Bool :=
  decide (p.status = ProposalStatus.Pending) &&
  (decide (p.proposer = actor) || isAdmin)

/-- Modelled from the spec: the ledger-level `reject` operation; its
authoritative implementation (the `useVaultContract.rejectProposal`
collaborator and the contract) is not under the excerpt, which only contains
the UI caller `handleRejectConfirm`. The proposal is looked up by id
(`NotFound` if absent), the `canReject` precondition is checked before the
external call (`Forbidden` on failure, ledger untouched), and only then is
the external outcome `ext` consulted: a confirmed success flips the status
to `Rejected`, an external error is reported as `SubmissionFailed` with the
original message and the ledger untouched. -/
def rejectOp (ledger : List Proposal) (pid : Nat) (actor : String)
    (isAdmin : Bool) (ext : Except String String) :
    List Proposal × Except RejectError String :=
  match ledger.find? (fun q => decide (q.id = pid)) with
  | none => (ledger, Except.error RejectError.NotFound)
  | some p =>
    if specCanReject p actor isAdmin then
      match ext with
      | Except.ok tx =>
        (ledger.map (fun q => if q.id = pid then { q with status := ProposalStatus.Rejected } else q),
         Except.ok tx)
      | Except.error m => (ledger, Except.error (RejectError.SubmissionFailed m))
    else (ledger, Except.error RejectError.Forbidden)

/-- Modelled from the spec: the sub-reason attached to `NotExecutable`,
implemented nowhere in the excerpt. Following the specification's two
execution scenarios, an unmet threshold is reported as `ThresholdUnmet` and
any other failing precondition as `StillTimelocked`. -/
def notExecutableReason (p : Proposal) : NotExecutableReason :=
  if p.approvals < p.threshold then NotExecutableReason.ThresholdUnmet
  else NotExecutableReason.StillTimelocked

/-- Modelled from the spec: the ledger-level `execute` operation; its
authoritative implementation (the `useVaultContract.executeProposal`
collaborator and the contract) is not under the excerpt, which only contains
the UI caller `handleExecuteClick` and the render-time disabling of the
execute button via `canExecuteProposal`. The proposal is looked up by id
(`NotFound` if absent), the source-derived `canExecuteProposal` precondition
is checked before the external call (`NotExecutable` with its sub-reason on
failure, ledger untouched), and only then is the external outcome `ext`
consulted. -/
def executeOp (ledger : List Proposal) (pid : Nat)
    (ext : Except String String) :
    List Proposal × Except ExecError String :=
  match ledger.find? (fun q => decide (q.id = pid)) with
  | none => (ledger, Except.error ExecError.NotFound)
  | some p =>
    if canExecuteProposal p then
      match ext with
      | Except.ok tx =>
        (ledger.map (fun q => if q.id = pid then { q with status := ProposalStatus.Executed } else q),
         Except.ok tx)
      | Except.error m => (ledger, Except.error (ExecError.SubmissionFailed m))
    else (ledger, Except.error (ExecError.NotExecutable (notExecutableReason p)))

/-- Modelled from the spec: `refreshBlockHeight`, absent from the excerpt.
Updates the stored current block height, rejecting a lower value from a
misbehaving feed as a no-op so the stored height never decreases. -/
def refreshBlockHeight (stored newBlock : Nat) : Nat :=
  if newBlock < stored then stored else newBlock

/-- A concrete transaction hash for instantiating the operations. -/
def txHashA : String := "TX123"

/-- C1: for every proposal and block height, `canExecuteProposal` holds iff
the status is `Approved`, the approvals reach the threshold, and the
timelock is expired; in particular any proposal below threshold is not
executable at any block height. -/
theorem canExecute_iff (p : Proposal) :
    (canExecuteProposal p = true ↔
      (p.status = ProposalStatus.Approved ∧ p.threshold ≤ p.approvals ∧
        isTimelockExpired p = true)) ∧
    (∀ b : Option Nat, p.approvals < p.threshold →
      canExecuteProposal { p with currentLedger := b } = false) := by
  constructor
  · simp [canExecuteProposal, and_assoc]
  · intro b h
    have hb : ¬ p.threshold ≤ p.approvals := by omega
    simp [canExecuteProposal, hb]

/-- Witness for C1 at mock proposal 1 (1 approval of 3) and block
height 5. -/
theorem canExecute_iff_witness :
    canExecuteProposal { mockProposal1 with currentLedger := some 5 } = false :=
  (canExecute_iff mockProposal1).2 (some 5) (by decide)

/-- C2: `getLedgersRemaining` returns `max(0, unlockLedger - currentLedger)`
when the unlock ledger is nonzero, and 0 when it is zero or absent; being a
plain function of the proposal record, it has no side effects. -/
theorem ledgersRemaining_spec (p : Proposal) :
    (∀ u b : Nat, p.unlockLedger = some u → u ≠ 0 → p.currentLedger = some b →
      getLedgersRemaining p = max 0 ((u : Int) - (b : Int))) ∧
    ((p.unlockLedger = none ∨ p.unlockLedger = some 0) →
      getLedgersRemaining p = 0) := by
  constructor
  · intro u b hu hne hb
    simp [getLedgersRemaining, hu, hb, hne]
  · rintro (h | h) <;> simp [getLedgersRemaining, h]

/-- Witness for C2 at mock proposal 3 (unlocks at 1500, current ledger
1200). -/
theorem ledgersRemaining_spec_witness :
    getLedgersRemaining mockProposal3 = max 0 (((1500 : Nat) : Int) - ((1200 : Nat) : Int)) :=
  (ledgersRemaining_spec mockProposal3).1 1500 1200 rfl (by decide) rfl

/-- C3: `isTimelockExpired` is exactly `getLedgersRemaining = 0`, and a
proposal with `unlockLedger = 0` is timelock-expired at every current
ledger. -/
theorem isTimelockExpired_spec (p : Proposal) :
    (isTimelockExpired p = decide (getLedgersRemaining p = 0)) ∧
    (p.unlockLedger = some 0 → ∀ b : Option Nat,
      isTimelockExpired { p with currentLedger := b } = true) := by
  constructor
  · rfl
  · intro h b
    simp [isTimelockExpired, getLedgersRemaining, h]

/-- Witness for C3 at mock proposal 2 (`unlockLedger = 0`) with an
arbitrary large current ledger. -/
theorem isTimelockExpired_spec_witness :
    isTimelockExpired { mockProposal2 with currentLedger := some 999999 } = true :=
  (isTimelockExpired_spec mockProposal2).2 rfl (some 999999)

/-- C4: `getLedgersRemaining` is monotonically non-increasing in the current
ledger height and never negative. -/
theorem ledgersRemaining_antitone (p : Proposal) (b1 b2 : Nat) :
    (b1 ≤ b2 →
      getLedgersRemaining { p with currentLedger := some b2 } ≤
        getLedgersRemaining { p with currentLedger := some b1 }) ∧
    0 ≤ getLedgersRemaining p := by
  constructor
  · intro h
    simp only [getLedgersRemaining, Option.getD_some]
    split
    · exact le_refl 0
    · omega
  · unfold getLedgersRemaining
    split
    · exact le_refl 0
    · exact le_max_left 0 _

/-- Witness for C4 at mock proposal 3 between ledgers 1200 and 1300. -/
theorem ledgersRemaining_antitone_witness :
    getLedgersRemaining { mockProposal3 with currentLedger := some 1300 } ≤
      getLedgersRemaining { mockProposal3 with currentLedger := some 1200 } :=
  (ledgersRemaining_antitone mockProposal3 1200 1300).1 (by decide)

/-- C5 counterexample: with a connected wallet, `canRejectProposal` returns
true for the proposer of mock proposal 2 even though that proposal is
`Approved`, not `Pending`, and the role is not admin — so the claimed "iff
pending and (proposer or admin)" fails as stated. -/
theorem canReject_claim_cex :
    canRejectProposal true (some proposerAddr) treasurerRole mockProposal2 = true ∧
    ¬(mockProposal2.status = ProposalStatus.Pending ∧
       (mockProposal2.proposer = proposerAddr ∨ treasurerRole = adminRole)) := by
  constructor
  · decide
  · decide

/-- C5 amended: with a connected wallet and a nonempty address,
`canRejectProposal` itself checks only the actor (proposer or admin role)
and ignores the status; the `Pending`-only restriction is enforced at the
rendering call site, so the reject action as a whole is offered iff the
proposal is pending and the actor is its proposer or an admin. -/
theorem canReject_amended (p : Proposal) (addr role : String) :
    addr.isEmpty = false →
    (canRejectProposal true (some addr) role p =
      (decide (p.proposer = addr) || decide (role = adminRole))) ∧
    (rejectActionAvailable true (some addr) role p =
      (decide (p.status = ProposalStatus.Pending) &&
        (decide (p.proposer = addr) || decide (role = adminRole)))) := by
  intro h
  constructor
  · simp [canRejectProposal, h]
  · simp [rejectActionAvailable, canRejectProposal, h]

/-- Witness for C5's amended statement at mock proposal 1 and its
proposer. -/
theorem canReject_amended_witness :
    canRejectProposal true (some proposerAddr) treasurerRole mockProposal1 =
      (decide (mockProposal1.proposer = proposerAddr) ||
        decide (treasurerRole = adminRole)) :=
  (canReject_amended mockProposal1 proposerAddr treasurerRole (by decide)).1

/-- C6: rejecting a proposal whose status is `Executed` fails with
`Forbidden` and leaves the ledger unchanged, whatever the external outcome
would have been. -/
theorem reject_executed_forbidden (ledger : List Proposal) (pid : Nat)
    (p : Proposal) (actor : String) (isAdmin : Bool)
    (ext : Except String String) :
    ledger.find? (fun q => decide (q.id = pid)) = some p →
    p.status = ProposalStatus.Executed →
    rejectOp ledger pid actor isAdmin ext =
      (ledger, Except.error RejectError.Forbidden) := by
  intro hfind hstat
  simp [rejectOp, hfind, specCanReject, hstat]

/-- Witness for C6 on a one-element ledger holding the executed mock
proposal. -/
theorem reject_executed_forbidden_witness :
    rejectOp [executedProposal] 2 proposerAddr true (Except.ok txHashA) =
      ([executedProposal], Except.error RejectError.Forbidden) :=
  reject_executed_forbidden [executedProposal] 2 executedProposal proposerAddr
    true (Except.ok txHashA) rfl rfl

/-- C7: when the external submission collaborator fails with an error
carrying message `m`, both handlers leave the proposal list exactly as it
was and surface `m` verbatim in the emitted notification. -/
theorem external_failure_atomic (ps : List Proposal) (pid : Nat) (m : String) :
    handleRejectConfirm ps (some pid) (Except.error (some m)) =
      (ps, some (rejectedEvent, m, errorLevel)) ∧
    handleExecuteClick ps pid (Except.error (some m)) =
      (ps, some (executedEvent, m, errorLevel)) :=
  ⟨rfl, rfl⟩

/-- C8: `refreshBlockHeight` keeps the stored value when the new one is
lower and adopts it otherwise, so the stored current block never
decreases. -/
theorem refreshBlockHeight_monotone (c n : Nat) :
    refreshBlockHeight c n = (if n < c then c else n) ∧
    c ≤ refreshBlockHeight c n := by
  refine ⟨rfl, ?_⟩
  unfold refreshBlockHeight
  split <;> omega

/-- C9: executing a found proposal that fails `canExecuteProposal` yields
`NotExecutable` with its sub-reason and an unchanged ledger, independently
of the external outcome (no external call is consulted); on the
specification's scenarios, the still-timelocked mock proposal 3 (300 ledgers
remaining) is classified `StillTimelocked` and the below-threshold proposal
`ThresholdUnmet`. -/
theorem execute_notExecutable (ledger : List Proposal) (pid : Nat)
    (p : Proposal) (ext : Except String String) :
    (ledger.find? (fun q => decide (q.id = pid)) = some p →
      canExecuteProposal p = false →
      executeOp ledger pid ext =
        (ledger, Except.error (ExecError.NotExecutable (notExecutableReason p)))) ∧
    notExecutableReason mockProposal3 = NotExecutableReason.StillTimelocked ∧
    canExecuteProposal mockProposal3 = false ∧
    getLedgersRemaining mockProposal3 = 300 ∧
    notExecutableReason thresholdUnmetProposal = NotExecutableReason.ThresholdUnmet ∧
    canExecuteProposal thresholdUnmetProposal = false := by
  refine ⟨?_, by decide, by decide, by decide, by decide, by decide⟩
  intro hfind hcan
  simp [executeOp, hfind, hcan]

/-- Witness for C9 on a one-element ledger holding the still-timelocked mock
proposal 3. -/
theorem execute_notExecutable_witness :
    executeOp [mockProposal3] 3 (Except.ok txHashA) =
      ([mockProposal3],
       Except.error (ExecError.NotExecutable (notExecutableReason mockProposal3))) :=
  (execute_notExecutable [mockProposal3] 3 mockProposal3 (Except.ok txHashA)).1
    rfl (by decide)

/-- C10: a proposal with a nonzero unlock ledger and no `currentLedger`
field treats the missing height as 0: the full unlock ledger count remains,
the timelock is not expired, and the proposal is not executable. -/
theorem absent_currentLedger_locks (p : Proposal) (u : Nat) :
    p.unlockLedger = some u → u ≠ 0 → p.currentLedger = none →
    getLedgersRemaining p = (u : Int) ∧ isTimelockExpired p = false ∧
      canExecuteProposal p = false := by
  intro hu hne hc
  have h1 : getLedgersRemaining p = (u : Int) := by
    simp [getLedgersRemaining, hu, hne, hc]
  have h2 : isTimelockExpired p = false := by
    simp [isTimelockExpired, h1, hne]
  refine ⟨h1, h2, ?_⟩
  simp [canExecuteProposal, h2]

/-- Witness for C10 at mock proposal 3 with its `currentLedger` field
removed. -/
theorem absent_currentLedger_locks_witness :
    getLedgersRemaining lockedNoLedger = ((1500 : Nat) : Int) ∧
      isTimelockExpired lockedNoLedger = false ∧
      canExecuteProposal lockedNoLedger = false :=
  absent_currentLedger_locks lockedNoLedger 1500 rfl (by decide) rfl
